import Mathlib

/-
Verification of the material-contract chaincode (ZiJun0819/Fabric-supplyMaterialBidding).

Shallow embedding of:
  - src/unnamed/part_000  (lib/material.js): the MaterialContract entity, the cmState
    encoding, the getters/setters and toBuffer;
  - src/unnamed/part_001  (lib/materialContractlist.js): the ContractList collection
    and its method surface;
  - src/contract/lib/materialContractContract.js: the issue / selectContract /
    signContract transactions and the queryNamed selector construction.

The ledger-api base classes (state.js, statelist.js) are not part of the sources;
where their behaviour decides a claim they are modelled from the spec (doc comments
below start with "Modelled from the spec:" at each such point).

The ledger world state is modelled as an association list from composite keys to
entities; each transaction is a pure function from the store (plus the caller's MSP
identity, which the code obtains via ctx.clientIdentity.getMSPID()) to an
Except-result carrying the updated store and the returned entity. A thrown JS error
aborts the invocation with no store change, which the Except error branch models
(no partial commit, per the spec's transaction model).
-/

/-- JavaScript number restricted to what this code produces: an integer or NaN
(parseInt of a non-numeric string). -/
inductive JsNum where
  | nan : JsNum
  | int : Int → JsNum
deriving DecidableEq, Repr

/-- JSON rendering of a JsNum: JSON.stringify serializes NaN as null. -/
def JsNum.toJson : JsNum → String
  | .nan => "null"
  | .int n => toString n

/-- Leading decimal digits of a character list: accumulates digits until the first
non-digit; none when no digit was consumed (JS parseInt then yields NaN). -/
def takeDigits : List Char → Nat → Bool → Option Nat
  | [], acc, seen => if seen then some acc else none
  | c :: rest, acc, seen =>
    if c.isDigit then takeDigits rest (acc * 10 + (c.toNat - 48)) true
    else if seen then some acc else none

/-- Model of the JavaScript parseInt builtin as used by issue (radix unspecified,
decimal input): leading whitespace is skipped, an optional sign is read, then the
longest prefix of decimal digits; NaN when no digit follows. (The hexadecimal 0x
prefix special case of parseInt is irrelevant to the inputs considered here.) -/
def parseIntJs (s : String) : JsNum :=
  match s.toList.dropWhile (fun c => c == ' ' || c == '\t' || c == '\n' || c == '\r') with
  | '-' :: rest =>
    match takeDigits rest 0 false with
    | some n => .int (-(n : Int))
    | none => .nan
  | '+' :: rest =>
    match takeDigits rest 0 false with
    | some n => .int (n : Int)
    | none => .nan
  | cs =>
    match takeDigits cs 0 false with
    | some n => .int (n : Int)
    | none => .nan

/-- State encoding from material.js: const cmState = ISSUED: 1, TRADING: 2, SIGNED: 3. -/
def cmState.ISSUED : Nat := 1

/-- State encoding from material.js (TRADING: 2). -/
def cmState.TRADING : Nat := 2

/-- State encoding from material.js (SIGNED: 3). -/
def cmState.SIGNED : Nat := 3

/-- The MaterialContract entity of material.js. createInstance builds the object
from issuer, materialNumber, matetialType (sic), arrivalTime, rewardValue; the
State base constructor fixes the key attributes as [obj.issuer, obj.number], where
the JS property `number` is undefined (none) on every instance built by
createInstance, since createInstance only sets `materialNumber`. The fields owner,
mspid and currentState are written by setOwner / setOwnerMSP / setIssued,
setTrading, setSigned. -/
structure MaterialContract where
  issuer : String
  materialNumber : String
  matetialType : String
  arrivalTime : String
  rewardValue : JsNum
  number : Option String
  owner : String
  mspid : String
  currentState : Nat
deriving DecidableEq, Repr

/-- Modelled from the spec: a composite key joins the namespace and the ordered
attribute list with a reserved delimiter, injectively; within the fixed
MaterialContract namespace a key is therefore represented by its attribute pair.
The second attribute is an Option String because the State constructor reads
obj.number, which may be the JS undefined value (none). -/
abbrev CKey := String × Option String

/-- The static makeKey inherited from the State base class, as invoked by
selectContract and signContract: MaterialContract.makeKey([issuer, materialNumber])
with both parts strings. Modelled from the spec: the built key is the attribute
list itself (injective composite-key construction). -/
def MaterialContract.makeKey (issuer materialNumber : String) : CKey :=
  (issuer, some materialNumber)

/-- The key under which an entity is stored, fixed at construction by the State
base constructor call super(MaterialContract.getClass(), [obj.issuer, obj.number])
in material.js. -/
def MaterialContract.contractKey (e : MaterialContract) : CKey :=
  (e.issuer, e.number)

/-- Serialization of the entity, material.js toBuffer: Buffer.from(JSON.stringify(this)).
Own enumerable properties in insertion order: class and key (set by the State base
constructor - modelled from the spec: class tag = getClass(), key string = the
attribute parts joined by the reserved delimiter, a JS undefined part contributing
an empty segment), then currentState, the five fields copied from obj by
Object.assign, and mspid and owner added by the setters. The property `number` is
never an own property of an instance built by createInstance, so JSON.stringify
omits it. NaN serializes as null. -/
def MaterialContract.toBuffer (e : MaterialContract) : String :=
  "\x7b\"class\":\"org.materialnet.materialcontract\"," ++
  "\"key\":\"" ++ e.issuer ++ ":" ++ (match e.number with | some n => n | none => "") ++ "\"," ++
  "\"currentState\":" ++ toString e.currentState ++ "," ++
  "\"issuer\":\"" ++ e.issuer ++ "\"," ++
  "\"materialNumber\":\"" ++ e.materialNumber ++ "\"," ++
  "\"matetialType\":\"" ++ e.matetialType ++ "\"," ++
  "\"arrivalTime\":\"" ++ e.arrivalTime ++ "\"," ++
  "\"rewardValue\":" ++ e.rewardValue.toJson ++ "," ++
  "\"mspid\":\"" ++ e.mspid ++ "\"," ++
  "\"owner\":\"" ++ e.owner ++ "\"\x7d"

/-- Failure outcomes of an invocation. duplicateKey and notFound are the
spec-modelled EntityStore failures; error carries the message of a thrown
new Error(...); typeErrorNotAFunction models the TypeError raised by JavaScript
when a call target such as obj.m(...) resolves to undefined. -/
inductive JsErr where
  | duplicateKey : JsErr
  | notFound : JsErr
  | error : String → JsErr
  | typeErrorNotAFunction : String → JsErr
deriving DecidableEq, Repr

/-- The ledger world state within the MaterialContract namespace: an association
list from composite keys to stored entities (decode of the stored bytes is the
identity on all fields by the round-trip contract of the spec's EntityCodec). -/
abbrev Store := List (CKey × MaterialContract)

/-- Lookup of the entry stored at a key. -/
def findEntry : Store → CKey → Option MaterialContract
  | [], _ => none
  | (k1, e) :: rest, k => if k = k1 then some e else findEntry rest k

/-- Overwrite of every binding of a key (the stores considered bind each key once;
a total replace keeps the lemmas unconditional). -/
def storePut : Store → CKey → MaterialContract → Store
  | [], _, _ => []
  | (k1, e) :: rest, k, enew =>
    if k = k1 then (k1, enew) :: storePut rest k enew else (k1, e) :: storePut rest k enew

/-- Modelled from the spec: EntityStore.create (StateList.addState, reached through
ContractList.addMaterialContract) is put-if-absent at the key fixed by the entity's
own key attributes; it fails with DuplicateKey if an entry already exists there. -/
def addState (s : Store) (e : MaterialContract) : Except JsErr Store :=
  if (findEntry s e.contractKey).isSome then .error .duplicateKey
  else .ok ((e.contractKey, e) :: s)

/-- Modelled from the spec: EntityStore.read (StateList.getState, reached through
ContractList.getMaterialContract) fails with NotFound when no entry exists at the
key, and otherwise decodes the stored entity. -/
def getState (s : Store) (k : CKey) : Except JsErr MaterialContract :=
  match findEntry s k with
  | some e => .ok e
  | none => .error .notFound

/-- Modelled from the spec: EntityStore.update (StateList.updateState, reached
through ContractList.updateMaterialContract) recomputes the key from the entity's
key attributes, fails with NotFound when no prior entry exists there, and
otherwise overwrites. -/
def updateState (s : Store) (e : MaterialContract) : Except JsErr Store :=
  if (findEntry s e.contractKey).isSome then .ok (storePut s e.contractKey e)
  else .error .notFound

/-- The method surface of a ContractList instance: the three methods declared in
materialContractlist.js (src/unnamed/part_001) plus `use` from its constructor,
together with those inherited from the StateList base class (ledger-api, not in
the sources; modelled from the spec: the EntityStore operations create, read and
update, which part_001 itself names addState, getState and updateState when
delegating). JavaScript method dispatch on any name outside this list yields
undefined and the call throws a TypeError. -/
def ContractList.methodNames : List String :=
  ["addMaterialContract", "getMaterialContract", "updateMaterialContract",
   "use", "addState", "getState", "updateState"]

/-- The entity as issue has built it just before addMaterialContract runs
(materialContractContract.js lines 65-84): createInstance with
parseInt(rewardValue), then setIssued(), then setOwnerMSP(callerMSP), then
setOwner(issuer). The JS property `number` is undefined on the new instance. -/
def issuedContract (callerMSP issuer materialNumber matetialType arrivalTime rewardValue : String) :
    MaterialContract :=
  { issuer := issuer
    materialNumber := materialNumber
    matetialType := matetialType
    arrivalTime := arrivalTime
    rewardValue := parseIntJs rewardValue
    number := none
    owner := issuer
    mspid := callerMSP
    currentState := cmState.ISSUED }

/-- The issue transaction (materialContractContract.js lines 65-90): build the
entity, store it via ctx.materialContractList.addMaterialContract (addState), and
return the serialized entity toBuffer(). callerMSP is ctx.clientIdentity.getMSPID(). -/
def issue (s : Store) (callerMSP issuer materialNumber matetialType arrivalTime rewardValue : String) :
    Except JsErr (Store × String) :=
  let mc := issuedContract callerMSP issuer materialNumber matetialType arrivalTime rewardValue
  match addState s mc with
  | .ok s2 => .ok (s2, mc.toBuffer)
  | .error err => .error err

/-- The selectContract transaction (materialContractContract.js lines 92-128):
look the entity up under makeKey([issuer, materialNumber]) via
getMaterialContract; throw if getOwner() !== currentOwner; setTrading() if
isIssued(); if isTrading(), setOwner(newOwner) and setOwnerMSP(callerMSP), else
throw the not-trading error; finally persist via updateMaterialContract and
return the entity. callerMSP is ctx.clientIdentity.getMSPID(). -/
def selectContract (s : Store) (callerMSP issuer materialNumber currentOwner newOwner : String) :
    Except JsErr (Store × MaterialContract) :=
  match getState s (MaterialContract.makeKey issuer materialNumber) with
  | .error err => .error err
  | .ok mc =>
    if mc.owner ≠ currentOwner then
      .error (.error ("\nmaterial " ++ issuer ++ materialNumber ++ " is not owned by " ++ currentOwner))
    else
      let mc1 := if mc.currentState = cmState.ISSUED then { mc with currentState := cmState.TRADING } else mc
      if mc1.currentState = cmState.TRADING then
        let mc2 := { mc1 with owner := newOwner, mspid := callerMSP }
        match updateState s mc2 with
        | .ok s2 => .ok (s2, mc2)
        | .error err => .error err
      else
        .error (.error ("\nmaterial " ++ issuer ++ materialNumber ++
          " is not trading. Current state = " ++ toString mc1.currentState))

/-- The signContract transaction (materialContractContract.js lines 130-172). Its
first step is ctx.materialContractList.getmaterial(materialKey); `getmaterial` is
not among the methods of ContractList (part_001 declares getMaterialContract) nor
of the StateList base, so the call target is undefined and JavaScript throws a
TypeError before anything is read - the dispatch guard below reproduces this. The
remaining branch transcribes lines 136-171: the already-signed check, the owning
MSP check against ctx.clientIdentity.getMSPID(), the isTrading() and
getIssuer() === signingOwner guard with setOwner(getIssuer()),
setOwnerMSP(issuingOwnerMSP), setSigned(), and the final
ctx.materialContractList.updatematerial(...) whose name `updatematerial` is
likewise undefined. -/
def signContract (s : Store) (callerMSP issuer materialNumber signingOwner issuingOwnerMSP : String) :
    Except JsErr (Store × MaterialContract) :=
  if ContractList.methodNames.contains "getmaterial" then
    match getState s (MaterialContract.makeKey issuer materialNumber) with
    | .error err => .error err
    | .ok mc =>
      if mc.currentState = cmState.SIGNED then
        .error (.error ("\nmaterialContract " ++ issuer ++ materialNumber ++ " has already been signed"))
      else if mc.mspid ≠ callerMSP then
        .error (.error ("\nmaterialContract " ++ issuer ++ materialNumber ++ " cannot be signed by " ++
          callerMSP ++ ", as it is not the authorised owning Organisation"))
      else if mc.currentState = cmState.TRADING ∧ mc.issuer = signingOwner then
        let mc2 := { mc with owner := mc.issuer, mspid := issuingOwnerMSP, currentState := cmState.SIGNED }
        if ContractList.methodNames.contains "updatematerial" then
          match updateState s mc2 with
          | .ok s2 => .ok (s2, mc2)
          | .error err => .error err
        else .error (.typeErrorNotAFunction "updatematerial")
      else
        .error (.error ("\nSigning owner: " ++ signingOwner ++
          " organisation does not currently own materialContract: " ++ issuer ++ materialNumber))
  else .error (.typeErrorNotAFunction "getmaterial")

/-- A mango selector as built by queryNamed (materialContractContract.js lines
236-253): either an equality constraint on the currentState field or a
greater-than constraint on a faceValue field. -/
inductive Selector where
  | stateEq : Nat → Selector
  | faceValueGt : Nat → Selector
deriving DecidableEq, Repr

/-- The selector construction of queryNamed (materialContractContract.js lines
236-253): the switch maps redeemed to currentState = 4, trading to
currentState = 3, value to faceValue greater than 4000000, and any other name to
a thrown error. The built selector is then forwarded to the external ad hoc query
executor, which is outside this core per the spec. -/
def queryNamed (queryname : String) : Except JsErr Selector :=
  if queryname = "redeemed" then .ok (.stateEq 4)
  else if queryname = "trading" then .ok (.stateEq 3)
  else if queryname = "value" then .ok (.faceValueGt 4000000)
  else .error (.error ("invalid named query supplied: " ++ queryname ++ "- please try again "))

/-- Modelled from the spec: bySelector forwards the structured filter to the
external selector-query collaborator, which matches stored documents field by
field. A currentState equality selector matches a stored MaterialContract
document exactly when its serialized currentState equals the constant; a
faceValue constraint matches no MaterialContract document since the entity has no
faceValue field (its value field is named rewardValue). -/
def selectorMatches : Selector → MaterialContract → Bool
  | .stateEq n, e => e.currentState == n
  | .faceValueGt _, _ => false

/-- One mutating call against a stored contract: a selectContract invocation
(callerMSP, issuer, materialNumber, currentOwner, newOwner) or a signContract
invocation (callerMSP, issuer, materialNumber, signingOwner, issuingOwnerMSP). -/
inductive Call where
  | select : String → String → String → String → String → Call
  | sign : String → String → String → String → String → Call

/-- The invocation result of one call against the current world state. -/
def stepExc (s : Store) : Call → Except JsErr (Store × MaterialContract)
  | .select cm i n co no => selectContract s cm i n co no
  | .sign cm i n so omsp => signContract s cm i n so omsp

/-- The world state after one call: a failed invocation aborts with no state
change (the ledger commits all-or-nothing per invocation). -/
def stepCall (s : Store) (c : Call) : Store :=
  match stepExc s c with
  | .ok (s2, _) => s2
  | .error _ => s

/-- The world state after a sequence of calls. -/
def runCalls (s : Store) : List Call → Store
  | [] => s
  | c :: cs => runCalls (stepCall s c) cs

/-- The composite key a call addresses: both transactions build
MaterialContract.makeKey([issuer, materialNumber]). -/
def callKey : Call → CKey
  | .select _ i n _ _ => MaterialContract.makeKey i n
  | .sign _ i n _ _ => MaterialContract.makeKey i n

/-- Store well-formedness, the spec's EntityStore key discipline: every entity is
stored under the composite key determined by its own key attributes. -/
def StoreWF (s : Store) : Prop := ∀ p ∈ s, MaterialContract.contractKey p.2 = p.1

/-- A contract as issued by MagnetoCorp, stored under the composite key
(MagnetoCorp, 1001) in accordance with the spec's persisted layout. -/
def sampleIssued : MaterialContract :=
  { issuer := "MagnetoCorp"
    materialNumber := "1001"
    matetialType := "Coal"
    arrivalTime := "2024-01-01"
    rewardValue := .int 5000000
    number := some "1001"
    owner := "MagnetoCorp"
    mspid := "MagnetoCorpMSP"
    currentState := cmState.ISSUED }

/-- The sample contract while TRADING, still owned by the issuing organisation
(the configuration of the spec's Scenario C). -/
def sampleTrading : MaterialContract :=
  { sampleIssued with currentState := cmState.TRADING }

/-- The sample contract once SIGNED. -/
def sampleSigned : MaterialContract :=
  { sampleIssued with currentState := cmState.SIGNED }

/-- A one-entry world state holding the ISSUED sample contract. -/
def sampleStoreIssued : Store := [(("MagnetoCorp", some "1001"), sampleIssued)]

/-- A one-entry world state holding the TRADING sample contract. -/
def sampleStoreTrading : Store := [(("MagnetoCorp", some "1001"), sampleTrading)]

/-- A one-entry world state holding the SIGNED sample contract. -/
def sampleStoreSigned : Store := [(("MagnetoCorp", some "1001"), sampleSigned)]

/-- The sample contract after a successful selectContract transferring it to
DigiBank under the DigiBankMSP caller: TRADING, new owner, caller MSP. -/
def sampleSelected : MaterialContract :=
  { sampleIssued with currentState := cmState.TRADING, owner := "DigiBank", mspid := "DigiBankMSP" }

/-- Empty check of findEntry on nil. -/
theorem findEntry_nil (k : CKey) : findEntry [] k = none := rfl

/-- Under the key discipline, an entity found at a key has that key as its own
contract key. -/
theorem findEntry_wf :
    ∀ s : Store, StoreWF s → ∀ {k : CKey} {e : MaterialContract},
      findEntry s k = some e → e.contractKey = k := by
  intro s
  induction s with
  | nil => intro _ k e h; simp [findEntry] at h
  | cons q rest ih =>
    intro hwf k e h
    obtain ⟨k1, e1⟩ := q
    have hrest : StoreWF rest := fun p hp => hwf p (List.mem_cons_of_mem _ hp)
    by_cases hk : k = k1
    · simp only [findEntry, if_pos hk] at h
      obtain rfl : e1 = e := by injection h
      rw [hk]
      exact hwf _ (List.mem_cons_self _ _)
    · simp only [findEntry, if_neg hk] at h
      exact ih hrest h

/-- storePut at the looked-up key: the entry is replaced when present. -/
theorem findEntry_storePut_self (s : Store) (k : CKey) (e2 : MaterialContract) :
    findEntry (storePut s k e2) k = (findEntry s k).map (fun _ => e2) := by
  induction s with
  | nil => rfl
  | cons q rest ih =>
    obtain ⟨k1, e1⟩ := q
    by_cases hk : k = k1 <;> simp [storePut, findEntry, hk, ih]

/-- storePut leaves every other key unchanged. -/
theorem findEntry_storePut_ne (s : Store) {k k2 : CKey} (e2 : MaterialContract) (h : k2 ≠ k) :
    findEntry (storePut s k e2) k2 = findEntry s k2 := by
  induction s with
  | nil => rfl
  | cons q rest ih =>
    obtain ⟨k1, e1⟩ := q
    by_cases hk : k = k1
    · subst hk
      simp [storePut, findEntry, h, ih]
    · by_cases hk2 : k2 = k1 <;> simp [storePut, findEntry, hk, hk2, ih]

/-- storePut preserves the key discipline when the new entity carries the key it
is written under. -/
theorem storePut_wf {k : CKey} {e2 : MaterialContract} (hk : e2.contractKey = k) :
    ∀ s : Store, StoreWF s → StoreWF (storePut s k e2) := by
  intro s
  induction s with
  | nil => intro _ p hp; simp [storePut] at hp
  | cons q rest ih =>
    intro hwf p hp
    obtain ⟨k1, e1⟩ := q
    have hrest : StoreWF rest := fun r hr => hwf r (List.mem_cons_of_mem _ hr)
    by_cases h1 : k = k1
    · simp only [storePut, if_pos h1] at hp
      rcases List.mem_cons.mp hp with h | h
      · subst h; simpa [← h1] using hk
      · exact ih hrest p h
    · simp only [storePut, if_neg h1] at hp
      rcases List.mem_cons.mp hp with h | h
      · subst h; exact hwf (k1, e1) (List.mem_cons_self _ _)
      · exact ih hrest p h

/-- Every signContract invocation fails with the TypeError for the undefined
method `getmaterial`, whatever the store and arguments. -/
theorem signContract_typeerror (s : Store) (cm i n so omsp : String) :
    signContract s cm i n so omsp = .error (.typeErrorNotAFunction "getmaterial") := by
  unfold signContract
  rw [if_neg (by decide : ¬ (ContractList.methodNames.contains "getmaterial" = true))]

/-- getState succeeds exactly on the stored entity. -/
theorem getState_ok_iff {s : Store} {k : CKey} {mc : MaterialContract} :
    getState s k = .ok mc ↔ findEntry s k = some mc := by
  unfold getState
  cases h : findEntry s k <;> simp

/-- A successful updateState is the overwrite at the entity's own key. -/
theorem updateState_ok_inv {s : Store} {e : MaterialContract} {s2 : Store}
    (h : updateState s e = .ok s2) : s2 = storePut s e.contractKey e := by
  unfold updateState at h
  by_cases hp : (findEntry s e.contractKey).isSome
  · rw [if_pos hp] at h
    injection h with h2
    exact h2.symm
  · rw [if_neg hp] at h
    exact absurd h (by simp)

/-- selectContract on an absent key fails with NotFound. -/
theorem selectContract_notFound {s : Store} {i n : String}
    (h : findEntry s (i, some n) = none) (cm co no : String) :
    selectContract s cm i n co no = .error .notFound := by
  simp [selectContract, getState, MaterialContract.makeKey, h]

/-- selectContract fails with the ownership message when the stored owner is not
the asserted current owner, and issues no store write. -/
theorem selectContract_owner_mismatch {s : Store} {i n : String} {e : MaterialContract}
    (he : findEntry s (i, some n) = some e) {co : String} (how : e.owner ≠ co) (cm no : String) :
    selectContract s cm i n co no =
      .error (.error ("\nmaterial " ++ i ++ n ++ " is not owned by " ++ co)) := by
  simp [selectContract, getState, MaterialContract.makeKey, he, how]

/-- selectContract on a well-formed store with matching owner and state ISSUED or
TRADING: the entity moves to TRADING with the new owner and the caller's MSP, and
the store is overwritten at the same key via updateState. -/
theorem selectContract_trades {s : Store} (hwf : StoreWF s) {i n : String} {e : MaterialContract}
    (he : findEntry s (i, some n) = some e) {co : String} (how : e.owner = co)
    (hst : e.currentState = cmState.ISSUED ∨ e.currentState = cmState.TRADING) (cm no : String) :
    selectContract s cm i n co no =
      .ok (storePut s (i, some n) { e with currentState := cmState.TRADING, owner := no, mspid := cm },
           { e with currentState := cmState.TRADING, owner := no, mspid := cm }) := by
  have hkey : e.contractKey = (i, some n) := findEntry_wf s hwf he
  obtain ⟨ei, emn, emt, eat, erv, enum, eo, ems, ecs⟩ := e
  obtain ⟨rfl, rfl⟩ : ei = i ∧ enum = some n := by
    simpa [MaterialContract.contractKey, Prod.ext_iff] using hkey
  subst how
  rcases hst with h | h <;> subst h <;>
    simp [selectContract, getState, MaterialContract.makeKey, he, updateState,
      MaterialContract.contractKey, cmState.ISSUED, cmState.TRADING]

/-- selectContract with matching owner on a state that is neither ISSUED nor
TRADING (hence SIGNED for contracts of this lifecycle) fails with the not-trading
message carrying the current state. -/
theorem selectContract_not_trading {s : Store} {i n : String} {e : MaterialContract}
    (he : findEntry s (i, some n) = some e) {co : String} (how : e.owner = co)
    (h1 : e.currentState ≠ cmState.ISSUED) (h2 : e.currentState ≠ cmState.TRADING) (cm no : String) :
    selectContract s cm i n co no =
      .error (.error ("\nmaterial " ++ i ++ n ++
        " is not trading. Current state = " ++ toString e.currentState)) := by
  subst how
  simp [selectContract, getState, MaterialContract.makeKey, he, h1, h2]

/-- Inversion of a successful selectContract: it found an entity under
(issuer, materialNumber), the owner matched, the state was ISSUED or TRADING, the
returned entity is the traded update, and the new store is the overwrite at the
entity's own key. -/
theorem selectContract_ok_inv {s : Store} {cm i n co no : String} {s2 : Store} {e2 : MaterialContract}
    (h : selectContract s cm i n co no = .ok (s2, e2)) :
    ∃ e, findEntry s (i, some n) = some e ∧ e.owner = co ∧
      (e.currentState = cmState.ISSUED ∨ e.currentState = cmState.TRADING) ∧
      e2 = { e with currentState := cmState.TRADING, owner := no, mspid := cm } ∧
      s2 = storePut s e2.contractKey e2 := by
  unfold selectContract at h
  cases hfe : getState s (MaterialContract.makeKey i n) with
  | error err => rw [hfe] at h; exact absurd h (by simp)
  | ok mc =>
    rw [hfe] at h
    dsimp only at h
    have hmc : findEntry s (i, some n) = some mc := getState_ok_iff.mp hfe
    by_cases how : mc.owner = co
    · rw [if_neg (not_not_intro how)] at h
      by_cases hi : mc.currentState = cmState.ISSUED
      · rw [if_pos hi] at h
        dsimp only at h
        rw [if_pos rfl] at h
        cases hup : updateState s { mc with currentState := cmState.TRADING, owner := no, mspid := cm } with
        | error err => rw [hup] at h; exact absurd h (by simp)
        | ok s3 =>
          rw [hup] at h
          obtain ⟨rfl, rfl⟩ : s3 = s2 ∧ { mc with currentState := cmState.TRADING, owner := no, mspid := cm } = e2 := by
            constructor <;> injection h with h2 <;> injection h2
          exact ⟨mc, hmc, how, Or.inl hi, rfl, updateState_ok_inv hup⟩
      · rw [if_neg hi] at h
        by_cases ht : mc.currentState = cmState.TRADING
        · rw [if_pos ht] at h
          cases hup : updateState s { mc with owner := no, mspid := cm } with
          | error err => rw [hup] at h; exact absurd h (by simp)
          | ok s3 =>
            rw [hup] at h
            obtain ⟨rfl, rfl⟩ : s3 = s2 ∧ { mc with owner := no, mspid := cm } = e2 := by
              constructor <;> injection h with h2 <;> injection h2
            have hrec : ({ mc with owner := no, mspid := cm } : MaterialContract) =
                { mc with currentState := cmState.TRADING, owner := no, mspid := cm } := by
              obtain ⟨a1, a2, a3, a4, a5, a6, a7, a8, a9⟩ := mc
              simp only [MaterialContract.mk.injEq, and_true, true_and]
              exact ht
            exact ⟨mc, hmc, how, Or.inr ht, hrec, updateState_ok_inv hup⟩
        · rw [if_neg ht] at h
          exact absurd h (by simp)
    · rw [if_pos how] at h
      exact absurd h (by simp)

/-- One call on a well-formed store preserves well-formedness, removes no entry,
and changes the entity at a key only through a successful selectContract, which
leaves it TRADING and starts only from ISSUED or TRADING. -/
theorem stepCall_invariant {s : Store} (hwf : StoreWF s) (c : Call) :
    StoreWF (stepCall s c) ∧
    ∀ k e, findEntry s k = some e →
      ∃ e2, findEntry (stepCall s c) k = some e2 ∧
        (e2 = e ∨ (e2.currentState = cmState.TRADING ∧
          (e.currentState = cmState.ISSUED ∨ e.currentState = cmState.TRADING))) := by
  cases c with
  | sign cm i n so omsp =>
    have h : stepCall s (.sign cm i n so omsp) = s := by
      simp [stepCall, stepExc, signContract_typeerror]
    rw [h]
    exact ⟨hwf, fun k e he => ⟨e, he, Or.inl rfl⟩⟩
  | select cm i n co no =>
    cases hsel : selectContract s cm i n co no with
    | error err =>
      have h : stepCall s (.select cm i n co no) = s := by
        simp [stepCall, stepExc, hsel]
      rw [h]
      exact ⟨hwf, fun k e he => ⟨e, he, Or.inl rfl⟩⟩
    | ok p =>
      obtain ⟨s2, e2⟩ := p
      have hstep : stepCall s (.select cm i n co no) = s2 := by
        simp [stepCall, stepExc, hsel]
      obtain ⟨e0, he0, how, hst, he2, hs2⟩ := selectContract_ok_inv hsel
      have hk0 : e0.contractKey = (i, some n) := findEntry_wf s hwf he0
      have hk2 : e2.contractKey = (i, some n) := by
        rw [he2, ← hk0]
        rfl
      rw [hstep, hs2, hk2]
      constructor
      · exact storePut_wf hk2 s hwf
      · intro k e he
        by_cases hkk : k = (i, some n)
        · subst hkk
          refine ⟨e2, ?_, Or.inr ⟨by rw [he2], ?_⟩⟩
          · rw [findEntry_storePut_self, he]
            rfl
          · have heq : e0 = e := Option.some.inj (he0.symm.trans he)
            rw [← heq]
            exact hst
        · exact ⟨e, by rw [findEntry_storePut_ne s e2 hkk]; exact he, Or.inl rfl⟩

/-- A sequence of calls on a well-formed store preserves well-formedness and
relates the entry at each key to the original entry by the single-step relation:
unchanged, or now TRADING having started from ISSUED or TRADING. -/
theorem runCalls_invariant (cs : List Call) :
    ∀ s : Store, StoreWF s →
      StoreWF (runCalls s cs) ∧
      ∀ k e, findEntry s k = some e →
        ∃ e2, findEntry (runCalls s cs) k = some e2 ∧
          (e2 = e ∨ (e2.currentState = cmState.TRADING ∧
            (e.currentState = cmState.ISSUED ∨ e.currentState = cmState.TRADING))) := by
  induction cs with
  | nil => exact fun s hwf => ⟨hwf, fun k e he => ⟨e, he, Or.inl rfl⟩⟩
  | cons c cs ih =>
    intro s hwf
    simp only [runCalls]
    obtain ⟨hwf1, hstep⟩ := stepCall_invariant hwf c
    obtain ⟨hwf2, hrun⟩ := ih (stepCall s c) hwf1
    refine ⟨hwf2, fun k e he => ?_⟩
    obtain ⟨e1, he1, hr1⟩ := hstep k e he
    obtain ⟨e2, he2, hr2⟩ := hrun k e1 he1
    refine ⟨e2, he2, ?_⟩
    rcases hr1 with rfl | ⟨h1a, h1b⟩
    · exact hr2
    · rcases hr2 with rfl | ⟨h2a, _⟩
      · exact Or.inr ⟨h1a, h1b⟩
      · exact Or.inr ⟨h2a, h1b⟩

/-- On a well-formed store whose entry at a key is SIGNED, every selectContract
or signContract call addressed to that key fails. -/
theorem signed_blocks {s : Store} {k : CKey} {e : MaterialContract}
    (he : findEntry s k = some e) (hs : e.currentState = cmState.SIGNED) :
    ∀ c : Call, callKey c = k → ∃ err, stepExc s c = .error err := by
  intro c hc
  cases c with
  | sign cm i n so omsp => exact ⟨_, signContract_typeerror s cm i n so omsp⟩
  | select cm i n co no =>
    have hk : (MaterialContract.makeKey i n : CKey) = k := hc
    rw [show (MaterialContract.makeKey i n : CKey) = (i, some n) from rfl] at hk
    subst hk
    by_cases how : e.owner = co
    · refine ⟨_, selectContract_not_trading he how ?_ ?_ cm no⟩
      · rw [hs]; decide
      · rw [hs]; decide
    · exact ⟨_, selectContract_owner_mismatch he how cm no⟩

/-- issue on a store with no entry at (issuer, undefined) succeeds, prepending the
issued entity under its own key and returning its serialization. -/
theorem issue_ok {s : Store} {i : String} (habs : findEntry s (i, none) = none)
    (cm n t a r : String) :
    issue s cm i n t a r =
      .ok ((((i, none) : CKey), issuedContract cm i n t a r) :: s,
           (issuedContract cm i n t a r).toBuffer) := by
  simp [issue, addState, MaterialContract.contractKey, issuedContract, habs]

/-- issue fails with DuplicateKey when an entry already sits at (issuer, undefined). -/
theorem issue_duplicate {s : Store} {i : String}
    (hpresent : (findEntry s (i, none)).isSome = true) (cm n t a r : String) :
    issue s cm i n t a r = .error .duplicateKey := by
  simp [issue, addState, MaterialContract.contractKey, issuedContract, hpresent]

/-- Inversion of a successful issue: the key (issuer, undefined) was absent, the
new store prepends the issued entity under that key, and the returned buffer is
its serialization. -/
theorem issue_ok_inv {s : Store} {cm i n t a r : String} {s2 : Store} {buf : String}
    (h : issue s cm i n t a r = .ok (s2, buf)) :
    findEntry s (i, none) = none ∧
    s2 = (((i, none) : CKey), issuedContract cm i n t a r) :: s ∧
    buf = (issuedContract cm i n t a r).toBuffer := by
  unfold issue addState at h
  dsimp only at h
  by_cases hp : (findEntry s (MaterialContract.contractKey (issuedContract cm i n t a r))).isSome
  · rw [if_pos hp] at h
    exact absurd h (by simp)
  · rw [if_neg hp] at h
    have h2 := Except.ok.inj h
    refine ⟨Option.not_isSome_iff_eq_none.mp hp, ?_, ?_⟩
    · exact (congrArg Prod.fst h2).symm
    · exact (congrArg Prod.snd h2).symm

/-- C1 (code bug): in the Scenario C configuration - a stored TRADING contract
whose owningOrg equals the caller's MSP and whose issuer equals the signingOwner
argument - the sign operation does not succeed: signContract fails with the
TypeError for the undefined ContractList method `getmaterial` before any check
or store update, so the stored entity is never rewritten to SIGNED. -/
theorem C1_sign_typeerror_despite_valid_input :
    sampleTrading.currentState = cmState.TRADING ∧
    sampleTrading.mspid = "MagnetoCorpMSP" ∧
    sampleTrading.issuer = "MagnetoCorp" ∧
    findEntry sampleStoreTrading ("MagnetoCorp", some "1001") = some sampleTrading ∧
    signContract sampleStoreTrading "MagnetoCorpMSP" "MagnetoCorp" "1001" "MagnetoCorp" "MagnetoCorpMSP" =
      .error (.typeErrorNotAFunction "getmaterial") ∧
    ContractList.methodNames.contains "getmaterial" = false :=
  ⟨rfl, rfl, rfl, by decide, signContract_typeerror _ _ _ _ _ _, by decide⟩

/-- C2 (code bug): issue stores the entity under the key (issuer, undefined),
because the State constructor reads obj.number, which createInstance never sets;
makeKey(issuer, materialNumber), as every subsequent lookup builds it, is a
different key, so the read fails with NotFound even though the freshly stored
entity does have state ISSUED, owner = issuer and the parsed rewardValue. -/
theorem C2_issue_key_mismatch :
    issue [] "MagnetoCorpMSP" "MagnetoCorp" "1001" "Coal" "2024-01-01" "5000000" =
      .ok ([((("MagnetoCorp" : String), (none : Option String)),
            issuedContract "MagnetoCorpMSP" "MagnetoCorp" "1001" "Coal" "2024-01-01" "5000000")],
           (issuedContract "MagnetoCorpMSP" "MagnetoCorp" "1001" "Coal" "2024-01-01" "5000000").toBuffer) ∧
    MaterialContract.contractKey
      (issuedContract "MagnetoCorpMSP" "MagnetoCorp" "1001" "Coal" "2024-01-01" "5000000") =
        (("MagnetoCorp" : String), (none : Option String)) ∧
    MaterialContract.makeKey "MagnetoCorp" "1001" ≠ (("MagnetoCorp" : String), (none : Option String)) ∧
    getState [((("MagnetoCorp" : String), (none : Option String)),
        issuedContract "MagnetoCorpMSP" "MagnetoCorp" "1001" "Coal" "2024-01-01" "5000000")]
      (MaterialContract.makeKey "MagnetoCorp" "1001") = .error .notFound ∧
    (issuedContract "MagnetoCorpMSP" "MagnetoCorp" "1001" "Coal" "2024-01-01" "5000000").currentState =
      cmState.ISSUED ∧
    (issuedContract "MagnetoCorpMSP" "MagnetoCorp" "1001" "Coal" "2024-01-01" "5000000").owner =
      "MagnetoCorp" ∧
    (issuedContract "MagnetoCorpMSP" "MagnetoCorp" "1001" "Coal" "2024-01-01" "5000000").rewardValue =
      JsNum.int 5000000 :=
  ⟨rfl, rfl, by decide, by rfl, rfl, rfl, by decide⟩

/-- C4: for every stored MaterialContract whose recorded owner differs from the
currentOwner argument, selectContract fails with the ownership-mismatch error;
the failing invocation returns no store, so no update is issued and the stored
entity (like the rest of the world state) is unchanged. -/
theorem C4_select_ownership_mismatch (s : Store) (cm i n co no : String)
    (e : MaterialContract) (he : findEntry s (i, some n) = some e) (how : e.owner ≠ co) :
    selectContract s cm i n co no =
      .error (.error ("\nmaterial " ++ i ++ n ++ " is not owned by " ++ co)) ∧
    ∀ s2 r, selectContract s cm i n co no ≠ .ok (s2, r) := by
  have h := selectContract_owner_mismatch he how cm no
  refine ⟨h, fun s2 r hok => ?_⟩
  rw [h] at hok
  exact absurd hok (by simp)

/-- Witness for C4: DigiBank does not own the stored sample contract, so the
concrete selectContract call fails with the ownership message. -/
theorem C4_select_ownership_mismatch_witness :
    (findEntry sampleStoreIssued ("MagnetoCorp", some "1001") = some sampleIssued ∧
     sampleIssued.owner ≠ "DigiBank") ∧
    (selectContract sampleStoreIssued "DigiBankMSP" "MagnetoCorp" "1001" "DigiBank" "Shanghai" =
      .error (.error ("\nmaterial " ++ "MagnetoCorp" ++ "1001" ++ " is not owned by " ++ "DigiBank")) ∧
     ∀ s2 r, selectContract sampleStoreIssued "DigiBankMSP" "MagnetoCorp" "1001" "DigiBank" "Shanghai" ≠
       .ok (s2, r)) :=
  ⟨⟨by decide, by decide⟩,
   C4_select_ownership_mismatch sampleStoreIssued "DigiBankMSP" "MagnetoCorp" "1001" "DigiBank"
     "Shanghai" sampleIssued (by decide) (by decide)⟩

/-- C5: for every stored MaterialContract (under the spec's key discipline) whose
owner equals the currentOwner argument: if its state is ISSUED or TRADING,
selectContract succeeds in the same call - an ISSUED contract moves to TRADING
with no separate activation step - and the store afterwards holds the entity with
owner = newOwner, owningOrg = the caller's MSP and state = TRADING, written back
at the same key by updateState; if its state is SIGNED, the call fails with the
invalid-state (not trading) error. -/
theorem C5_select_success_or_signed (s : Store) (hwf : StoreWF s) (cm i n co no : String)
    (e : MaterialContract) (he : findEntry s (i, some n) = some e) (how : e.owner = co) :
    ((e.currentState = cmState.ISSUED ∨ e.currentState = cmState.TRADING) →
      selectContract s cm i n co no =
        .ok (storePut s (i, some n) { e with currentState := cmState.TRADING, owner := no, mspid := cm },
             { e with currentState := cmState.TRADING, owner := no, mspid := cm }) ∧
      findEntry (storePut s (i, some n) { e with currentState := cmState.TRADING, owner := no, mspid := cm })
          (i, some n) =
        some { e with currentState := cmState.TRADING, owner := no, mspid := cm }) ∧
    (e.currentState = cmState.SIGNED →
      selectContract s cm i n co no =
        .error (.error ("\nmaterial " ++ i ++ n ++ " is not trading. Current state = " ++
          toString e.currentState))) := by
  constructor
  · intro hst
    refine ⟨selectContract_trades hwf he how hst cm no, ?_⟩
    rw [findEntry_storePut_self, he]
    rfl
  · intro hs
    exact selectContract_not_trading he how (by rw [hs]; decide) (by rw [hs]; decide) cm no

/-- Witness for C5: the Scenario B call on the ISSUED sample contract trades it
to DigiBank under the DigiBankMSP caller. -/
theorem C5_select_success_or_signed_witness :
    (StoreWF sampleStoreIssued ∧
     findEntry sampleStoreIssued ("MagnetoCorp", some "1001") = some sampleIssued ∧
     sampleIssued.owner = "MagnetoCorp" ∧ sampleIssued.currentState = cmState.ISSUED) ∧
    (selectContract sampleStoreIssued "DigiBankMSP" "MagnetoCorp" "1001" "MagnetoCorp" "DigiBank" =
      .ok (storePut sampleStoreIssued ("MagnetoCorp", some "1001") sampleSelected, sampleSelected) ∧
     findEntry (storePut sampleStoreIssued ("MagnetoCorp", some "1001") sampleSelected)
       ("MagnetoCorp", some "1001") = some sampleSelected) :=
  ⟨⟨by unfold StoreWF; decide, by decide, by decide, by decide⟩,
   (C5_select_success_or_signed sampleStoreIssued (by unfold StoreWF; decide) "DigiBankMSP" "MagnetoCorp" "1001"
     "MagnetoCorp" "DigiBank" sampleIssued (by decide) (by decide)).1 (Or.inl (by decide))⟩

/-- C3: on a store obeying the key discipline, for every stored MaterialContract
and every sequence of selectContract/signContract calls, the lifecycle state at
its key never regresses along ISSUED (1) → TRADING (2) → SIGNED (3); if the final
state is TRADING it started as ISSUED or TRADING; and once SIGNED the entry is
absorbing: it survives the whole run unchanged and every further selectContract
or signContract addressed to its key fails. -/
theorem C3_state_monotone (s : Store) (hwf : StoreWF s) (cs : List Call) (k : CKey)
    (e : MaterialContract) (he : findEntry s k = some e) :
    (∃ e2, findEntry (runCalls s cs) k = some e2 ∧
      e.currentState ≤ e2.currentState ∧
      (e2.currentState = cmState.TRADING →
        e.currentState = cmState.ISSUED ∨ e.currentState = cmState.TRADING)) ∧
    (e.currentState = cmState.SIGNED →
      findEntry (runCalls s cs) k = some e ∧
      ∀ c : Call, callKey c = k → ∃ err, stepExc (runCalls s cs) c = .error err) := by
  obtain ⟨hwf2, hrun⟩ := runCalls_invariant cs s hwf
  obtain ⟨e2, he2, hr⟩ := hrun k e he
  constructor
  · refine ⟨e2, he2, ?_, ?_⟩
    · rcases hr with rfl | ⟨h2, h1⟩
      · exact le_refl _
      · rw [h2, show cmState.TRADING = 2 from rfl]
        rcases h1 with h1 | h1 <;> rw [h1] <;> norm_num [cmState.ISSUED, cmState.TRADING]
    · intro ht
      rcases hr with rfl | ⟨h2, h1⟩
      · exact Or.inr ht
      · exact h1
  · intro hs
    have he2e : e2 = e := by
      rcases hr with rfl | ⟨h2, h1⟩
      · rfl
      · rcases h1 with h1 | h1 <;> rw [hs] at h1 <;> exact absurd h1 (by decide)
    subst he2e
    exact ⟨he2, signed_blocks he2 hs⟩

/-- Witness for C3: the ISSUED sample contract, with one concrete select call
trading it away. -/
theorem C3_state_monotone_witness :
    (StoreWF sampleStoreIssued ∧
     findEntry sampleStoreIssued ("MagnetoCorp", some "1001") = some sampleIssued) ∧
    ((∃ e2, findEntry (runCalls sampleStoreIssued
          [Call.select "DigiBankMSP" "MagnetoCorp" "1001" "MagnetoCorp" "DigiBank"])
          ("MagnetoCorp", some "1001") = some e2 ∧
        sampleIssued.currentState ≤ e2.currentState ∧
        (e2.currentState = cmState.TRADING →
          sampleIssued.currentState = cmState.ISSUED ∨ sampleIssued.currentState = cmState.TRADING)) ∧
     (sampleIssued.currentState = cmState.SIGNED →
       findEntry (runCalls sampleStoreIssued
           [Call.select "DigiBankMSP" "MagnetoCorp" "1001" "MagnetoCorp" "DigiBank"])
           ("MagnetoCorp", some "1001") = some sampleIssued ∧
       ∀ c : Call, callKey c = ("MagnetoCorp", some "1001") →
         ∃ err, stepExc (runCalls sampleStoreIssued
           [Call.select "DigiBankMSP" "MagnetoCorp" "1001" "MagnetoCorp" "DigiBank"]) c = .error err)) :=
  ⟨⟨by unfold StoreWF; decide, by decide⟩,
   C3_state_monotone sampleStoreIssued (by unfold StoreWF; decide)
     [Call.select "DigiBankMSP" "MagnetoCorp" "1001" "MagnetoCorp" "DigiBank"]
     ("MagnetoCorp", some "1001") sampleIssued (by decide)⟩

/-- C6: every issue call that succeeds has constructed the entity with
state = ISSUED, owner = issuer and owningOrg (mspid) = the caller's organization
tag, added it to the store through the put-if-absent create (the key was absent
and the new binding is prepended), and returned the serialized entity. -/
theorem C6_issue_success (s : Store) (cm i n t a r : String) (s2 : Store) (buf : String)
    (h : issue s cm i n t a r = .ok (s2, buf)) :
    ∃ mc : MaterialContract,
      mc = issuedContract cm i n t a r ∧
      mc.currentState = cmState.ISSUED ∧ mc.owner = i ∧ mc.mspid = cm ∧
      findEntry s mc.contractKey = none ∧
      s2 = (mc.contractKey, mc) :: s ∧
      buf = mc.toBuffer := by
  obtain ⟨habs, hs2, hbuf⟩ := issue_ok_inv h
  exact ⟨issuedContract cm i n t a r, rfl, rfl, rfl, rfl, habs, hs2, hbuf⟩

/-- Witness for C6: Scenario A - issuing material 1001 by MagnetoCorp on an empty
ledger succeeds with an ISSUED entity owned by MagnetoCorp. -/
theorem C6_issue_success_witness :
    issue [] "MagnetoCorpMSP" "MagnetoCorp" "1001" "Coal" "2024-01-01" "5000000" =
      .ok ([((("MagnetoCorp" : String), (none : Option String)),
            issuedContract "MagnetoCorpMSP" "MagnetoCorp" "1001" "Coal" "2024-01-01" "5000000")],
           (issuedContract "MagnetoCorpMSP" "MagnetoCorp" "1001" "Coal" "2024-01-01" "5000000").toBuffer) ∧
    (∃ mc : MaterialContract,
      mc = issuedContract "MagnetoCorpMSP" "MagnetoCorp" "1001" "Coal" "2024-01-01" "5000000" ∧
      mc.currentState = cmState.ISSUED ∧ mc.owner = "MagnetoCorp" ∧ mc.mspid = "MagnetoCorpMSP" ∧
      findEntry [] mc.contractKey = none ∧
      ([((("MagnetoCorp" : String), (none : Option String)),
         issuedContract "MagnetoCorpMSP" "MagnetoCorp" "1001" "Coal" "2024-01-01" "5000000")] : Store) =
        (mc.contractKey, mc) :: ([] : Store) ∧
      (issuedContract "MagnetoCorpMSP" "MagnetoCorp" "1001" "Coal" "2024-01-01" "5000000").toBuffer =
        mc.toBuffer) :=
  ⟨by rfl,
   C6_issue_success [] "MagnetoCorpMSP" "MagnetoCorp" "1001" "Coal" "2024-01-01" "5000000" _ _ (by rfl)⟩

/-- C7 (code bug): signContract never reaches its already-signed or organisation
checks: on a stored SIGNED contract, and equally on a TRADING contract whose
owningOrg differs from the caller's MSP, the call fails with the TypeError for
the undefined method `getmaterial` instead of the claimed errors (no store update
is issued either way, as the invocation aborts on the throw). -/
theorem C7_sign_checks_unreachable :
    sampleSigned.currentState = cmState.SIGNED ∧
    findEntry sampleStoreSigned ("MagnetoCorp", some "1001") = some sampleSigned ∧
    signContract sampleStoreSigned "MagnetoCorpMSP" "MagnetoCorp" "1001" "MagnetoCorp" "MagnetoCorpMSP" =
      .error (.typeErrorNotAFunction "getmaterial") ∧
    sampleTrading.mspid ≠ "DigiBankMSP" ∧
    signContract sampleStoreTrading "DigiBankMSP" "MagnetoCorp" "1001" "MagnetoCorp" "MagnetoCorpMSP" =
      .error (.typeErrorNotAFunction "getmaterial") :=
  ⟨rfl, by decide, signContract_typeerror _ _ _ _ _ _, by decide,
   signContract_typeerror _ _ _ _ _ _⟩

/-- C8 counterexample: with the non-numeric rewardValue "abc", issue does not
fail with an invalid-argument error and does create an entity: the call succeeds
and the stored entity carries rewardValue NaN. -/
theorem C8_counterexample_no_invalid_argument :
    parseIntJs "abc" = JsNum.nan ∧
    issue [] "MagnetoCorpMSP" "MagnetoCorp" "1001" "Coal" "2024-01-01" "abc" =
      .ok ([((("MagnetoCorp" : String), (none : Option String)),
            issuedContract "MagnetoCorpMSP" "MagnetoCorp" "1001" "Coal" "2024-01-01" "abc")],
           (issuedContract "MagnetoCorpMSP" "MagnetoCorp" "1001" "Coal" "2024-01-01" "abc").toBuffer) ∧
    (issuedContract "MagnetoCorpMSP" "MagnetoCorp" "1001" "Coal" "2024-01-01" "abc").rewardValue =
      JsNum.nan :=
  ⟨by decide, by rfl, by decide⟩

/-- C8 amended: issue performs no validation of rewardValue: for every
rewardValue string that JavaScript parseInt maps to NaN, the call still succeeds
whenever the key is absent, creating and storing the entity with
rewardValue = NaN instead of failing with an invalid-argument error. -/
theorem C8_amended_no_validation (s : Store) (cm i n t a r : String)
    (hnan : parseIntJs r = JsNum.nan) (habs : findEntry s (i, none) = none) :
    issue s cm i n t a r =
      .ok ((((i, none) : CKey), issuedContract cm i n t a r) :: s,
           (issuedContract cm i n t a r).toBuffer) ∧
    (issuedContract cm i n t a r).rewardValue = JsNum.nan :=
  ⟨issue_ok habs cm n t a r, hnan⟩

/-- Witness for the amended C8 at the concrete non-numeric input "abc". -/
theorem C8_amended_no_validation_witness :
    (parseIntJs "abc" = JsNum.nan ∧
     findEntry [] (("MagnetoCorp" : String), (none : Option String)) = none) ∧
    (issue [] "MagnetoCorpMSP" "MagnetoCorp" "1001" "Coal" "2024-01-01" "abc" =
      .ok ([((("MagnetoCorp" : String), (none : Option String)),
            issuedContract "MagnetoCorpMSP" "MagnetoCorp" "1001" "Coal" "2024-01-01" "abc")],
           (issuedContract "MagnetoCorpMSP" "MagnetoCorp" "1001" "Coal" "2024-01-01" "abc").toBuffer) ∧
     (issuedContract "MagnetoCorpMSP" "MagnetoCorp" "1001" "Coal" "2024-01-01" "abc").rewardValue =
       JsNum.nan) :=
  ⟨⟨by decide, rfl⟩,
   C8_amended_no_validation [] "MagnetoCorpMSP" "MagnetoCorp" "1001" "Coal" "2024-01-01" "abc"
     (by decide) rfl⟩

/-- C9: after a successful issue, a second issue for the same
(issuer, materialNumber) fails with DuplicateKey: create is put-if-absent, the
failing invocation produces no store, and the originally stored entity still
sits unchanged at its key. -/
theorem C9_double_issue (s : Store) (cm i n t a r cm2 t2 a2 r2 : String) (s2 : Store)
    (buf : String) (h : issue s cm i n t a r = .ok (s2, buf)) :
    issue s2 cm2 i n t2 a2 r2 = .error .duplicateKey ∧
    findEntry s2 (i, none) = some (issuedContract cm i n t a r) := by
  obtain ⟨habs, rfl, rfl⟩ := issue_ok_inv h
  constructor
  · exact issue_duplicate (by simp [findEntry]) cm2 n t2 a2 r2
  · simp [findEntry]

/-- Witness for C9: issuing material 1001 twice on an initially empty ledger,
the second call failing with DuplicateKey. -/
theorem C9_double_issue_witness :
    issue [] "MagnetoCorpMSP" "MagnetoCorp" "1001" "Coal" "2024-01-01" "5000000" =
      .ok ([((("MagnetoCorp" : String), (none : Option String)),
            issuedContract "MagnetoCorpMSP" "MagnetoCorp" "1001" "Coal" "2024-01-01" "5000000")],
           (issuedContract "MagnetoCorpMSP" "MagnetoCorp" "1001" "Coal" "2024-01-01" "5000000").toBuffer) ∧
    (issue [((("MagnetoCorp" : String), (none : Option String)),
          issuedContract "MagnetoCorpMSP" "MagnetoCorp" "1001" "Coal" "2024-01-01" "5000000")]
        "DigiBankMSP" "MagnetoCorp" "1001" "Iron" "2024-02-02" "7000000" = .error .duplicateKey ∧
     findEntry [((("MagnetoCorp" : String), (none : Option String)),
          issuedContract "MagnetoCorpMSP" "MagnetoCorp" "1001" "Coal" "2024-01-01" "5000000")]
        (("MagnetoCorp" : String), (none : Option String)) =
       some (issuedContract "MagnetoCorpMSP" "MagnetoCorp" "1001" "Coal" "2024-01-01" "5000000")) :=
  ⟨by rfl,
   C9_double_issue [] "MagnetoCorpMSP" "MagnetoCorp" "1001" "Coal" "2024-01-01" "5000000"
     "DigiBankMSP" "Iron" "2024-02-02" "7000000" _ _ (by rfl)⟩

/-- C10: the selector queryNamed builds for the name trading constrains
currentState to 3, which under the cmState encoding (ISSUED = 1, TRADING = 2,
SIGNED = 3) is the SIGNED encoding: it matches exactly the contracts whose state
is SIGNED and never one whose state is TRADING. -/
theorem C10_trading_query_matches_signed (e : MaterialContract) :
    queryNamed "trading" = .ok (.stateEq 3) ∧
    cmState.SIGNED = 3 ∧ cmState.TRADING = 2 ∧
    (selectorMatches (.stateEq 3) e = true ↔ e.currentState = cmState.SIGNED) ∧
    (e.currentState = cmState.TRADING → selectorMatches (.stateEq 3) e = false) := by
  refine ⟨by rfl, rfl, rfl, ?_, ?_⟩
  · simp [selectorMatches, cmState.SIGNED]
  · intro h
    simp [selectorMatches, h, cmState.TRADING]

/-- Witness for C10 at the TRADING sample contract, which the trading selector
indeed fails to match. -/
theorem C10_trading_query_matches_signed_witness :
    (queryNamed "trading" = .ok (.stateEq 3) ∧
     cmState.SIGNED = 3 ∧ cmState.TRADING = 2 ∧
     (selectorMatches (.stateEq 3) sampleTrading = true ↔
       sampleTrading.currentState = cmState.SIGNED) ∧
     (sampleTrading.currentState = cmState.TRADING →
       selectorMatches (.stateEq 3) sampleTrading = false)) ∧
    selectorMatches (.stateEq 3) sampleTrading = false :=
  ⟨C10_trading_query_matches_signed sampleTrading, by decide⟩
